import Mathlib

/-!
Verification of the audio session/playback controller of the Mvp repository
(src/index.tsx), shallowly embedded in Lean 4.

Clock values, audio durations and prompt weights are modelled as rationals.
The mutable fields of the `PromptDj` Lit element that the playback pipeline
reads and writes become an explicit state record; each event handler of the
source becomes a pure function from state (plus the event's data) to a new
state together with its observable outputs (scheduled buffers, toast
notices, outbound control payloads).
-/

namespace Mvp

/-- Playback states of the controller (type `PlaybackState`, src/index.tsx:196). -/
inductive PlaybackState where
  | stopped
  | playing
  | loading
  | paused
deriving Repr, DecidableEq

/-- A user prompt (interface `Prompt`, src/index.tsx:188-194).  The `color` and
`isTextEditable` fields are presentational and never read by the playback or
dispatch logic, so they are omitted here. -/
structure Prompt where
  promptId : String
  text : String
  weight : ℚ
deriving Repr, DecidableEq

/-- A weighted prompt as sent to the service (`WeightedPrompt` of the genai
API: a `text` plus a relative `weight`). -/
structure WeightedPrompt where
  text : String
  weight : ℚ
deriving Repr, DecidableEq

/-- Modelled from the spec: the transport payload of one audio chunk.  The
functions `decode` and `decodeAudioData` live in `./utils`, which is not under
src/; per spec section 4.1 a payload either decodes to a PCM buffer (here: its
duration on the output clock) or is malformed/truncated, in which case the
decoder fails by reporting rather than crashing.  The payload is therefore
abstracted to exactly those two outcomes. -/
structure EncodedChunk where
  wellFormed : Bool
  duration : ℚ
deriving Repr, DecidableEq

/-- A decoded PCM buffer; only its duration matters to the scheduler. -/
structure AudioBuffer where
  duration : ℚ
deriving Repr, DecidableEq

/-- Modelled from the spec: `decodeAudioData ∘ decode` from `./utils` (absent
from src/).  Spec section 4.1: produces a normalized PCM buffer, and fails —
reports, does not crash — on malformed or truncated payloads. -/
def decodeAudioData (c : EncodedChunk) : Option AudioBuffer :=
  if c.wellFormed then some ⟨c.duration⟩ else none

/-- A filtered-prompt notification from the service
(`e.filteredPrompt`, src/index.tsx:1672-1675). -/
structure FilteredPrompt where
  text : String
  filteredReason : String
deriving Repr, DecidableEq

/-- The `serverContent` part of an inbound message: an array of audio chunks
(src/index.tsx:1676-1678). -/
structure ServerContent where
  audioChunks : List EncodedChunk
deriving Repr, DecidableEq

/-- An inbound server message (`LiveMusicServerMessage`): any subset of
setup-complete, filtered-prompt and audio content may co-occur. -/
structure LiveMusicServerMessage where
  setupComplete : Bool
  filteredPrompt : Option FilteredPrompt
  serverContent : Option ServerContent
deriving Repr, DecidableEq

/-- The mutable fields of the `PromptDj` element read or written by the
session/playback logic (src/index.tsx:1601-1619).  `hasSession` models
whether `this.session` has been assigned (it is nullable before the first
successful connect).  The gain node is write-only from this logic and is
omitted. -/
structure PromptDjState where
  playbackState : PlaybackState
  nextStartTime : ℚ
  filteredPrompts : List String
  connectionError : Bool
  hasSession : Bool
  userPrompts : List Prompt
deriving Repr, DecidableEq

/-- The fixed lookahead `bufferTime` (src/index.tsx:1611): 2 seconds. -/
def bufferTime : ℚ := 2

/-- A buffer scheduled on the output graph: `source.start(nextStartTime)`
with the buffer's duration (src/index.tsx:1689-1690). -/
structure Sched where
  start : ℚ
  duration : ℚ
deriving Repr, DecidableEq

/-- Result of one run of the `onmessage` handler: the new element state, the
buffer scheduled by this call (if any), the toast notices dispatched, and
whether the loading-to-playing timer was armed (the `setTimeout` at
src/index.tsx:1684). -/
structure MsgResult where
  state : PromptDjState
  scheduled : Option Sched
  toasts : List String
  armedPlayTimer : Bool
deriving Repr, DecidableEq

/-- The toast for a filtered prompt: the rejection reason truncated to 50
characters (src/index.tsx:1674). -/
def filteredToast (reason : String) : String :=
  "Filtered: " ++ reason.take 50

/-- The `if (e.setupComplete)` step of `onmessage` (src/index.tsx:1671):
clears the connectivity-error flag. -/
def applySetup (st : PromptDjState) (setupComplete : Bool) : PromptDjState :=
  if setupComplete then { st with connectionError := false } else st

/-- The `if (e.filteredPrompt)` step of `onmessage` (src/index.tsx:1672-1675):
adds the text to the filtered set and toasts the truncated reason. -/
def applyFilteredPrompt (st : PromptDjState) (fp : Option FilteredPrompt) :
    PromptDjState × List String :=
  match fp with
  | some fp =>
      ({ st with filteredPrompts := fp.text :: st.filteredPrompts },
       [filteredToast fp.filteredReason])
  | none => (st, [])

/-- The `if (e.serverContent?.audioChunks !== undefined)` step of `onmessage`
(src/index.tsx:1676-1691): gated on the playback state, decodes chunk 0 only,
primes the cursor when it is the sentinel 0 (also arming the
loading-to-playing timer, the third component), detects underrun
(`nextStartTime < now`) by dropping the chunk, resetting the cursor and
entering `loading`, and otherwise schedules at `nextStartTime` and advances
it by the buffer's duration.  `now` is `this.audioContext.currentTime`.  An
empty `audioChunks` array would fault on `[0].data` in the source; that case
is modelled as a drop and is never relied upon by a theorem. -/
def applyAudio (st : PromptDjState) (now : ℚ) (sc : Option ServerContent) :
    PromptDjState × Option Sched × Bool :=
  match sc with
  | none => (st, none, false)
  | some sc =>
    if st.playbackState = .paused ∨ st.playbackState = .stopped then
      (st, none, false)
    else
      match sc.audioChunks.head? with
      | none => (st, none, false)
      | some c =>
        match decodeAudioData c with
        | none => (st, none, false)
        | some buf =>
          let primed := decide (st.nextStartTime = 0)
          let st :=
            if st.nextStartTime = 0 then
              { st with nextStartTime := now + bufferTime }
            else st
          if st.nextStartTime < now then
            ({ st with playbackState := .loading, nextStartTime := 0 },
             none, primed)
          else
            ({ st with nextStartTime := st.nextStartTime + buf.duration },
             some ⟨st.nextStartTime, buf.duration⟩, primed)

/-- The `onmessage` callback (src/index.tsx:1670-1692): the three steps above
in source order — all may co-occur in one message — assembled into the new
state, the scheduled buffer, the toasts and the armed-timer flag. -/
def onmessage (st : PromptDjState) (now : ℚ) (m : LiveMusicServerMessage) :
    MsgResult :=
  let st := applySetup st m.setupComplete
  let ft := applyFilteredPrompt st m.filteredPrompt
  let a := applyAudio ft.1 now m.serverContent
  ⟨a.1, a.2.1, ft.2, a.2.2⟩

/-- A message carrying exactly one audio chunk and nothing else. -/
def audioMsg (c : EncodedChunk) : LiveMusicServerMessage :=
  ⟨false, none, some ⟨[c]⟩⟩

/-- The `internalPauseAudio` method (src/index.tsx:1822-1829): guarded on a
live, non-errored session; sends `pause`, sets the state to `paused`, ramps
the gain to 0 (gain omitted here) and resets the cursor to 0. -/
def internalPauseAudio (st : PromptDjState) : PromptDjState :=
  if !st.hasSession || st.connectionError then st
  else { st with playbackState := .paused, nextStartTime := 0 }

/-- The `internalStopAudio` method (src/index.tsx:1844-1849): guarded only on
session existence; sends `stop`, sets the state to `stopped` and resets the
cursor to 0. -/
def internalStopAudio (st : PromptDjState) : PromptDjState :=
  if !st.hasSession then st
  else { st with playbackState := .stopped, nextStartTime := 0 }

/-- Toast dispatched by the `onerror` callback (src/index.tsx:1696). -/
def errorToast : String := "Lyria connection error. Please restart."

/-- Toast dispatched by the `onclose` callback on an unclean close
(src/index.tsx:1702). -/
def closeToast : String := "Lyria connection closed unexpectedly."

/-- The `onerror` callback (src/index.tsx:1693-1697): sets the
connectivity-error flag, hard-stops playback and surfaces a notice. -/
def onerror (st : PromptDjState) : PromptDjState × List String :=
  (internalStopAudio { st with connectionError := true }, [errorToast])

/-- The `onclose` callback (src/index.tsx:1698-1704): an unclean close is
treated like an error (different notice text); a clean close does nothing. -/
def onclose (st : PromptDjState) (wasClean : Bool) : PromptDjState × List String :=
  if wasClean then (st, [])
  else (internalStopAudio { st with connectionError := true }, [closeToast])

/-- The near-silent filler prompt substituted for an empty merged set
(src/index.tsx:1723). -/
def silenceFiller : WeightedPrompt := ⟨"silence", 1 / 100⟩

/-- The user prompts forwarded at dispatch time (src/index.tsx:1716-1718):
those with positive weight whose text has not been filtered by the service,
projected to `{text, weight}`. -/
def activeUserWPs (st : PromptDjState) : List WeightedPrompt :=
  (st.userPrompts.filter
      (fun p => decide (0 < p.weight ∧ p.text ∉ st.filteredPrompts))).map
    (fun p => ⟨p.text, p.weight⟩)

/-- Truncated toast for a failed prompt dispatch (src/index.tsx:1729). -/
def promptErrorToast (m : String) : String :=
  "Error setting prompts: " ++ m.take 100

/-- Truncated toast for a failed config dispatch (src/index.tsx:1739). -/
def configErrorToast (m : String) : String :=
  "Error setting Lyria config: " ++ m.take 100

/-- Result of one control-plane dispatch: the new state, the payload passed to
the session call (`none` when the guard returned before any call), and the
toasts. -/
structure DispatchResult (α : Type) where
  state : PromptDjState
  sent : Option α
  toasts : List String
deriving Repr, DecidableEq

/-- Body of the throttled `setSessionPrompts` (src/index.tsx:1714-1732),
with the network outcome of `session.setWeightedPrompts` as an explicit
parameter: guard on a live non-errored session; merge the agent-supplied
`prompts` with the active user prompts; substitute the silence filler for an
empty merge; send; on rejection, toast the truncated message and pause
defensively. -/
def setSessionPromptsBody (st : PromptDjState) (prompts : List WeightedPrompt)
    (sendResult : Except String Unit) : DispatchResult (List WeightedPrompt) :=
  if !st.hasSession || st.connectionError then ⟨st, none, []⟩
  else
    let userWPs := activeUserWPs st
    let allPrompts := prompts ++ userWPs
    let allPrompts := if allPrompts.isEmpty then [silenceFiller] else allPrompts
    match sendResult with
    | .ok _ => ⟨st, some allPrompts, []⟩
    | .error m => ⟨internalPauseAudio st, some allPrompts, [promptErrorToast m]⟩

/-- The sparse generation config as dispatched; only the two auto-capable
fields are tracked, the other knobs flow through the generic assignment
branch of `handleInputChange` untouched by the auto/manual logic. -/
structure LyriaConfig where
  density : Option ℚ
  brightness : Option ℚ
deriving Repr, DecidableEq

/-- Body of the throttled `updateLyriaConfig` (src/index.tsx:1734-1741), with
the network outcome of `session.setMusicGenerationConfig` explicit: guard on a
live non-errored session; send; on rejection, toast the truncated message —
and nothing else (no pause). -/
def updateLyriaConfigBody (st : PromptDjState) (cfg : LyriaConfig)
    (sendResult : Except String Unit) : DispatchResult LyriaConfig :=
  if !st.hasSession || st.connectionError then ⟨st, none, []⟩
  else
    match sendResult with
    | .ok _ => ⟨st, some cfg, []⟩
    | .error m => ⟨st, some cfg, [configErrorToast m]⟩

/-- The closure state of `throttle` (src/index.tsx:211-221): the epoch
milliseconds of the last forwarded call, initially 0. -/
def throttleStep (delay lastCall now : ℤ) : Bool :=
  decide (delay ≤ now - lastCall)

/-- A run of a `throttle`-wrapped function (src/index.tsx:211-221) over a
sequence of calls `(now, arg)` in time order: a call is forwarded exactly
when at least `delay` ms elapsed since the last forwarded call, which then
becomes the new `lastCall`; other calls are discarded.  Returns the final
`lastCall` and the forwarded arguments in order. -/
def throttleRun {α : Type} (delay : ℤ) : ℤ → List (ℤ × α) → ℤ × List α
  | lastCall, [] => (lastCall, [])
  | lastCall, (now, a) :: rest =>
    if throttleStep delay lastCall now then
      let r := throttleRun delay now rest
      (r.1, a :: r.2)
    else
      throttleRun delay lastCall rest

/-- The mutable fields of `SettingsController` touched by the auto/manual
density and brightness logic (src/index.tsx:1169-1175). -/
structure SettingsState where
  config : LyriaConfig
  autoDensity : Bool
  lastDefinedDensity : Option ℚ
  autoBrightness : Bool
  lastDefinedBrightness : Option ℚ
deriving Repr, DecidableEq

/-- A settings-panel input event relevant to the density/brightness logic:
the two auto checkboxes and the two range sliders (a range input always
carries a numeric value). -/
inductive SettingsEvent where
  | autoDensityToggle (checked : Bool)
  | densitySlider (v : ℚ)
  | autoBrightnessToggle (checked : Bool)
  | brightnessSlider (v : ℚ)
deriving Repr, DecidableEq

/-- The outgoing config built by `dispatchSettingsChange`
(src/index.tsx:1305-1317): the tracked config with the density and brightness
fields forced to `undefined` while their auto flag is on. -/
def dispatchSettingsChange (st : SettingsState) : LyriaConfig :=
  { density := if st.autoDensity then none else st.config.density,
    brightness := if st.autoBrightness then none else st.config.brightness }

/-- The `handleInputChange` branches for the auto checkboxes and the density
and brightness sliders (src/index.tsx:1259-1277), ending — as in the source —
with `dispatchSettingsChange`; returns the new state and the dispatched
config.  Toggling auto off restores the last defined value (default 0.5);
moving a slider records the last defined value always and writes the config
only in manual mode. -/
def handleInputChange (st : SettingsState) (e : SettingsEvent) :
    SettingsState × LyriaConfig :=
  let st :=
    match e with
    | .autoDensityToggle c =>
        { st with autoDensity := c,
                  config := { st.config with
                    density := if c then none
                               else some (st.lastDefinedDensity.getD (1 / 2)) } }
    | .densitySlider v =>
        { st with lastDefinedDensity := some v,
                  config := { st.config with
                    density := if st.autoDensity then st.config.density
                               else some v } }
    | .autoBrightnessToggle c =>
        { st with autoBrightness := c,
                  config := { st.config with
                    brightness := if c then none
                                  else some (st.lastDefinedBrightness.getD (1 / 2)) } }
    | .brightnessSlider v =>
        { st with lastDefinedBrightness := some v,
                  config := { st.config with
                    brightness := if st.autoBrightness then st.config.brightness
                                  else some v } }
  (st, dispatchSettingsChange st)

-- -----------------------------------------------------------------------------
-- Theorems
-- -----------------------------------------------------------------------------

/-- C1: for an audio chunk handled while playback is neither paused nor
stopped, if the previously computed `nextStartTime` (not the sentinel 0) is
strictly less than the current output-clock time, the handler schedules
nothing, resets `nextStartTime` to 0 and sets the playback state to
`loading`; the next chunk then re-primes the cursor to the current time plus
the fixed lookahead `bufferTime` and is scheduled there. -/
theorem c1_underrun_recovery (st : PromptDjState) (now now2 : ℚ)
    (c1 c2 : EncodedChunk)
    (hp : st.playbackState ≠ .paused) (hs : st.playbackState ≠ .stopped)
    (hnz : st.nextStartTime ≠ 0) (hur : st.nextStartTime < now)
    (hwf1 : c1.wellFormed = true) (hwf2 : c2.wellFormed = true) :
    (onmessage st now (audioMsg c1)).scheduled = none ∧
    (onmessage st now (audioMsg c1)).state.playbackState = .loading ∧
    (onmessage st now (audioMsg c1)).state.nextStartTime = 0 ∧
    (onmessage (onmessage st now (audioMsg c1)).state now2 (audioMsg c2)).scheduled
      = some ⟨now2 + bufferTime, c2.duration⟩ := by
  have h1 : onmessage st now (audioMsg c1) =
      ⟨{ st with playbackState := .loading, nextStartTime := 0 },
        none, [], false⟩ := by
    simp [onmessage, applySetup, applyFilteredPrompt, applyAudio, audioMsg, decodeAudioData, hwf1, hnz, hur, hp, hs]
  have hlt : ¬ (now2 + bufferTime < now2) := by
    rw [bufferTime]
    intro h
    linarith
  have h2 : onmessage { st with
      playbackState := PlaybackState.loading,
      nextStartTime := (0 : ℚ) } now2 (audioMsg c2) =
      ⟨{ st with
          playbackState := .loading,
          nextStartTime := now2 + bufferTime + c2.duration },
        some ⟨now2 + bufferTime, c2.duration⟩, [], true⟩ := by
    simp [onmessage, applySetup, applyFilteredPrompt, applyAudio, audioMsg, decodeAudioData, hwf2, hlt]
  rw [h1]
  exact ⟨rfl, rfl, rfl, by rw [h2]⟩

/-- Witness for C1 at a concrete underrun state. -/
theorem c1_underrun_recovery_witness :
    (onmessage ⟨.playing, 5, [], false, true, []⟩ 10
        (audioMsg ⟨true, 1⟩)).scheduled = none ∧
    (onmessage ⟨.playing, 5, [], false, true, []⟩ 10
        (audioMsg ⟨true, 1⟩)).state.playbackState = .loading ∧
    (onmessage ⟨.playing, 5, [], false, true, []⟩ 10
        (audioMsg ⟨true, 1⟩)).state.nextStartTime = 0 ∧
    (onmessage (onmessage ⟨.playing, 5, [], false, true, []⟩ 10
        (audioMsg ⟨true, 1⟩)).state 20 (audioMsg ⟨true, 1⟩)).scheduled
      = some ⟨20 + bufferTime, 1⟩ :=
  c1_underrun_recovery ⟨.playing, 5, [], false, true, []⟩ 10 20
    ⟨true, 1⟩ ⟨true, 1⟩ (by decide) (by decide) (by decide) (by decide)
    (by decide) (by decide)

/-- Helper: anatomy of a scheduling call.  Whenever the handler schedules a
buffer `⟨s, d⟩` for an audio message, the duration is the chunk's, the start
is not in the past, the cursor moves to `s + d`, the playback state is
untouched, and — when the cursor was not the sentinel — the start is exactly
the incoming cursor value. -/
lemma onmessage_audio_sched (st : PromptDjState) (now : ℚ) (c : EncodedChunk)
    (s d : ℚ)
    (h : (onmessage st now (audioMsg c)).scheduled = some ⟨s, d⟩) :
    d = c.duration ∧ now ≤ s ∧
    (onmessage st now (audioMsg c)).state.nextStartTime = s + d ∧
    (onmessage st now (audioMsg c)).state.playbackState = st.playbackState ∧
    (st.nextStartTime ≠ 0 → s = st.nextStartTime) := by
  by_cases hg : st.playbackState = .paused ∨ st.playbackState = .stopped
  · exfalso
    simp [onmessage, applySetup, applyFilteredPrompt, applyAudio, audioMsg, hg] at h
  · obtain ⟨hp, hs⟩ := not_or.mp hg
    by_cases hwf : c.wellFormed = true
    · by_cases h0 : st.nextStartTime = 0
      · have hu : ¬ (now + bufferTime < now) := by
          rw [bufferTime]
          intro hx
          linarith
        have hres : onmessage st now (audioMsg c) =
            ⟨{ st with nextStartTime := now + bufferTime + c.duration },
              some ⟨now + bufferTime, c.duration⟩, [], true⟩ := by
          simp [onmessage, applySetup, applyFilteredPrompt, applyAudio, audioMsg, decodeAudioData, hwf, hp, hs, h0, hu]
        rw [hres] at h ⊢
        simp only [Option.some.injEq, Sched.mk.injEq] at h
        obtain ⟨h1, h2⟩ := h
        refine ⟨h2.symm, ?_, ?_, rfl, fun hn => absurd h0 hn⟩
        · rw [← h1, bufferTime]
          linarith
        · rw [← h1, ← h2]
      · by_cases hu : st.nextStartTime < now
        · exfalso
          simp [onmessage, applySetup, applyFilteredPrompt, applyAudio, audioMsg, decodeAudioData, hwf, hp, hs, h0, hu] at h
        · have hres : onmessage st now (audioMsg c) =
              ⟨{ st with nextStartTime := st.nextStartTime + c.duration },
                some ⟨st.nextStartTime, c.duration⟩, [], false⟩ := by
            simp [onmessage, applySetup, applyFilteredPrompt, applyAudio, audioMsg, decodeAudioData, hwf, hp, hs, h0, hu]
          rw [hres] at h ⊢
          simp only [Option.some.injEq, Sched.mk.injEq] at h
          obtain ⟨h1, h2⟩ := h
          refine ⟨h2.symm, ?_, ?_, rfl, fun _ => h1.symm⟩
          · rw [← h1]
            exact not_lt.mp hu
          · rw [← h1, ← h2]
    · exfalso
      have hwf' : c.wellFormed = false := by
        revert hwf
        cases c.wellFormed <;> simp
      simp [onmessage, applySetup, applyFilteredPrompt, applyAudio, audioMsg, decodeAudioData, hwf', hp, hs] at h

/-- C2: consecutive successfully decoded chunks handled without underrun chain
exactly — when the handler schedules `⟨s, d⟩` for one chunk and, on the state
it leaves behind, schedules `⟨s2, d2⟩` for the next, the second start time is
the first start plus the first duration, so the cursor strictly advances and
the two buffers occupy the disjoint adjacent intervals of the output
timeline. -/
theorem c2_monotonic_scheduling (st : PromptDjState) (now now2 : ℚ)
    (c c2 : EncodedChunk) (s d s2 d2 : ℚ)
    (hnow : 0 ≤ now) (hd : 0 < c.duration)
    (h1 : (onmessage st now (audioMsg c)).scheduled = some ⟨s, d⟩)
    (h2 : (onmessage (onmessage st now (audioMsg c)).state now2
        (audioMsg c2)).scheduled = some ⟨s2, d2⟩) :
    s2 = s + d ∧ s < s2 := by
  obtain ⟨hdur, hns, hnext, _, _⟩ := onmessage_audio_sched st now c s d h1
  obtain ⟨_, _, _, _, hprev2⟩ :=
    onmessage_audio_sched (onmessage st now (audioMsg c)).state now2 c2 s2 d2 h2
  have hpos : (onmessage st now (audioMsg c)).state.nextStartTime ≠ 0 := by
    rw [hnext, hdur]
    intro hzero
    have : (0 : ℚ) ≤ s := le_trans hnow hns
    linarith
  have hs2 : s2 = s + d := by
    rw [hprev2 hpos, hnext]
  exact ⟨hs2, by rw [hs2, hdur]; linarith⟩

/-- Numeric fact used by witnesses: five plus one is six over the rationals. -/
lemma rat_five_add_one : (5 : ℚ) + 1 = 6 := by norm_num

/-- Numeric fact used by witnesses: six is not less than four. -/
lemma rat_not_six_lt_four : ¬ ((6 : ℚ) < 4) := by norm_num

/-- Numeric fact used by witnesses: six is nonzero. -/
lemma rat_six_ne_zero : (6 : ℚ) ≠ 0 := by norm_num

/-- Numeric fact used by witnesses: five is not less than three. -/
lemma rat_not_five_lt_three : ¬ ((5 : ℚ) < 3) := by norm_num

/-- Numeric fact used by witnesses: five is nonzero. -/
lemma rat_five_ne_zero : (5 : ℚ) ≠ 0 := by norm_num

/-- Witness for C2: a first chunk scheduled at cursor 5 with duration 1 is
followed by a second chunk scheduled exactly at 6. -/
theorem c2_monotonic_scheduling_witness : (6 : ℚ) = 5 + 1 ∧ (5 : ℚ) < 6 :=
  c2_monotonic_scheduling ⟨.playing, 5, [], false, true, []⟩ 3 4
    ⟨true, 1⟩ ⟨true, 2⟩ 5 1 6 2 (by decide) (by decide) (by decide)
    (by simp [onmessage, applySetup, applyFilteredPrompt, applyAudio, audioMsg, decodeAudioData, rat_five_add_one,
          rat_not_six_lt_four, rat_six_ne_zero, rat_not_five_lt_three,
          rat_five_ne_zero])

/-- C9: a malformed (undecodable) audio chunk is non-fatal — the handler
returns normally having dropped exactly that chunk: nothing is scheduled, no
toast is shown, and the state (playback state and scheduling cursor included)
is unchanged. -/
theorem c9_decode_failure_nonfatal (st : PromptDjState) (now : ℚ)
    (c : EncodedChunk)
    (hp : st.playbackState ≠ .paused) (hs : st.playbackState ≠ .stopped)
    (hwf : c.wellFormed = false) :
    onmessage st now (audioMsg c) = ⟨st, none, [], false⟩ := by
  simp [onmessage, applySetup, applyFilteredPrompt, applyAudio, audioMsg, decodeAudioData, hwf, hp, hs]

/-- Witness for C9 at a concrete malformed chunk. -/
theorem c9_decode_failure_nonfatal_witness :
    onmessage ⟨.playing, 5, [], false, true, []⟩ 3 (audioMsg ⟨false, 1⟩)
      = ⟨⟨.playing, 5, [], false, true, []⟩, none, [], false⟩ :=
  c9_decode_failure_nonfatal ⟨.playing, 5, [], false, true, []⟩ 3 ⟨false, 1⟩
    (by decide) (by decide) (by decide)

/-- C4: when the agent-supplied prompt list is empty and every user prompt is
zero-weight or service-filtered, the dispatched set is exactly the single
filler entry `silence` with weight 1/100 — never an empty list — whatever
the network outcome of the send. -/
theorem c4_empty_set_substitution (st : PromptDjState) (r : Except String Unit)
    (hsess : st.hasSession = true) (herr : st.connectionError = false)
    (hempty : ∀ p ∈ st.userPrompts, p.weight = 0 ∨ p.text ∈ st.filteredPrompts) :
    (setSessionPromptsBody st [] r).sent = some [silenceFiller] := by
  have hact : activeUserWPs st = [] := by
    unfold activeUserWPs
    rw [List.filter_eq_nil_iff.mpr, List.map_nil]
    intro p hp
    simp only [decide_eq_true_eq, not_and, not_not]
    intro hw
    rcases hempty p hp with h0 | hf
    · exact absurd (h0 ▸ hw) (lt_irrefl 0)
    · exact hf
  cases r <;> simp [setSessionPromptsBody, hsess, herr, hact, silenceFiller]

/-- Witness for C4 at a state whose user prompts are one filtered and one
zero-weight prompt. -/
theorem c4_empty_set_substitution_witness :
    (setSessionPromptsBody
        ⟨.playing, 0, ["bad"], false, true,
          [⟨"u1", "bad", 5⟩, ⟨"u2", "ok", 0⟩]⟩ [] (.ok ())).sent
      = some [silenceFiller] :=
  c4_empty_set_substitution
    ⟨.playing, 0, ["bad"], false, true, [⟨"u1", "bad", 5⟩, ⟨"u2", "ok", 0⟩]⟩
    (.ok ()) (by decide) (by decide) (by decide)

/-- Helper: the audio step never touches the filtered set. -/
lemma applyAudio_filteredPrompts (st : PromptDjState) (now : ℚ)
    (sc : Option ServerContent) :
    (applyAudio st now sc).1.filteredPrompts = st.filteredPrompts := by
  rcases sc with _ | s
  · rfl
  · simp only [applyAudio]
    split
    · rfl
    · split
      · rfl
      · split
        · rfl
        · split_ifs <;> rfl

/-- Helper: the setup step never touches the filtered set. -/
lemma applySetup_filteredPrompts (st : PromptDjState) (b : Bool) :
    (applySetup st b).filteredPrompts = st.filteredPrompts := by
  cases b <;> rfl

/-- Helper: any weighted prompt contributed by the user-prompt merge has
positive weight and an unfiltered text (src/index.tsx:1716-1718). -/
lemma mem_activeUserWPs (st : PromptDjState) (wp : WeightedPrompt)
    (h : wp ∈ activeUserWPs st) :
    0 < wp.weight ∧ wp.text ∉ st.filteredPrompts := by
  unfold activeUserWPs at h
  obtain ⟨p, hp, rfl⟩ := List.mem_map.mp h
  obtain ⟨-, hpred⟩ := List.mem_filter.mp hp
  simp only [decide_eq_true_eq] at hpred
  exact hpred

/-- Helper: the `onmessage` handler never removes anything from the filtered
set — it only ever adds the newly reported text (src/index.tsx:1673). -/
lemma onmessage_filtered_monotone (st : PromptDjState) (now : ℚ)
    (m : LiveMusicServerMessage) (x : String) (hx : x ∈ st.filteredPrompts) :
    x ∈ (onmessage st now m).state.filteredPrompts := by
  rcases m with ⟨su, fp, sc⟩
  show x ∈ (applyAudio (applyFilteredPrompt (applySetup st su) fp).1
      now sc).1.filteredPrompts
  rw [applyAudio_filteredPrompts]
  rcases fp with _ | f
  · simpa [applyFilteredPrompt, applySetup_filteredPrompts] using hx
  · simp only [applyFilteredPrompt, applySetup_filteredPrompts, List.mem_cons]
    exact Or.inr (by simpa [applySetup_filteredPrompts] using hx)

/-- C5 counterexample: the claim fails as stated.  With `"X"` already in the
filtered set, a dispatch whose agent-supplied list contains `"X"` still sends
`"X"`: only the user prompts are screened against the filtered set, the
agent-supplied list is not. -/
theorem c5_filtered_exclusion_counterexample :
    (setSessionPromptsBody ⟨.playing, 0, ["X"], false, true, []⟩
        [⟨"X", 1⟩] (.ok ())).sent = some [⟨"X", 1⟩] ∧
    "X" ∈ (⟨.playing, 0, ["X"], false, true, []⟩ : PromptDjState).filteredPrompts := by
  decide

/-- C5 amended: once a text is filtered it is excluded from the user-prompt
portion of every subsequent dispatch — any dispatched entry bearing that text
must come verbatim from the agent-supplied list or be the silence filler —
and the filtered set never shrinks: a dispatch leaves it unchanged and the
message handler only ever adds to it. -/
theorem c5_filtered_exclusion_amended (st : PromptDjState)
    (prompts l : List WeightedPrompt) (r : Except String Unit) (t : String)
    (ht : t ∈ st.filteredPrompts)
    (hsent : (setSessionPromptsBody st prompts r).sent = some l) :
    (∀ wp ∈ l, wp.text = t → wp ∈ prompts ∨ wp = silenceFiller) ∧
    (setSessionPromptsBody st prompts r).state.filteredPrompts
      = st.filteredPrompts ∧
    (∀ (now : ℚ) (m : LiveMusicServerMessage) (x : String),
      x ∈ st.filteredPrompts → x ∈ (onmessage st now m).state.filteredPrompts) := by
  by_cases hg : (!st.hasSession || st.connectionError) = true
  · exfalso
    simp [setSessionPromptsBody, hg] at hsent
  · have hl : l = if prompts = [] ∧ activeUserWPs st = [] then [silenceFiller]
        else prompts ++ activeUserWPs st := by
      cases r <;> simp [setSessionPromptsBody, hg] at hsent <;> exact hsent.symm
    refine ⟨?_, ?_, fun now m x hx => onmessage_filtered_monotone st now m x hx⟩
    · intro wp hwp htext
      rw [hl] at hwp
      by_cases he : prompts = [] ∧ activeUserWPs st = []
      · rw [if_pos he] at hwp
        right
        simpa using hwp
      · rw [if_neg he] at hwp
        rcases List.mem_append.mp hwp with hin | hin
        · exact Or.inl hin
        · exfalso
          obtain ⟨-, hnot⟩ := mem_activeUserWPs st wp hin
          exact hnot (htext ▸ ht)
    · cases r <;>
        simp [setSessionPromptsBody, hg, internalPauseAudio]

/-- Witness for C5 amended at a dispatch that merges one live user prompt with
one agent prompt while the text `"X"` is filtered. -/
theorem c5_filtered_exclusion_amended_witness :
    (∀ wp ∈ [⟨"A", 1⟩, ⟨"B", 2⟩],
      WeightedPrompt.text wp = "X" →
        wp ∈ [(⟨"A", 1⟩ : WeightedPrompt)] ∨ wp = silenceFiller) ∧
    (setSessionPromptsBody
        ⟨.playing, 0, ["X"], false, true, [⟨"u1", "B", 2⟩, ⟨"u2", "X", 3⟩]⟩
        [⟨"A", 1⟩] (.ok ())).state.filteredPrompts = ["X"] ∧
    (∀ (now : ℚ) (m : LiveMusicServerMessage) (x : String),
      x ∈ (⟨.playing, 0, ["X"], false, true,
            [⟨"u1", "B", 2⟩, ⟨"u2", "X", 3⟩]⟩ : PromptDjState).filteredPrompts →
      x ∈ (onmessage ⟨.playing, 0, ["X"], false, true,
            [⟨"u1", "B", 2⟩, ⟨"u2", "X", 3⟩]⟩ now m).state.filteredPrompts) :=
  c5_filtered_exclusion_amended
    ⟨.playing, 0, ["X"], false, true, [⟨"u1", "B", 2⟩, ⟨"u2", "X", 3⟩]⟩
    [⟨"A", 1⟩] [⟨"A", 1⟩, ⟨"B", 2⟩] (.ok ()) "X" (by decide) (by decide)

/-- C6 counterexample: the claim fails as stated.  A rejected config update is
caught and surfaces the truncated notice, but does not pause playback — the
state is left `playing`, not `paused`. -/
theorem c6_send_failure_counterexample :
    (updateLyriaConfigBody ⟨.playing, 7, [], false, true, []⟩ ⟨none, none⟩
        (.error "boom")).state.playbackState = .playing ∧
    (updateLyriaConfigBody ⟨.playing, 7, [], false, true, []⟩ ⟨none, none⟩
        (.error "boom")).state.playbackState ≠ .paused ∧
    (updateLyriaConfigBody ⟨.playing, 7, [], false, true, []⟩ ⟨none, none⟩
        (.error "boom")).toasts = [configErrorToast "boom"] := by
  constructor
  · rfl
  · constructor
    · decide
    · rfl

/-- C6 amended: every control-plane send failure is caught and surfaces a
truncated notice; a prompt-set send failure additionally forces a defensive
pause with the cursor reset, while a config send failure leaves the playback
state (and the rest of the element state) unchanged. -/
theorem c6_send_failure_amended (st : PromptDjState)
    (prompts : List WeightedPrompt) (cfg : LyriaConfig) (m : String)
    (hsess : st.hasSession = true) (herr : st.connectionError = false) :
    (setSessionPromptsBody st prompts (.error m)).state.playbackState = .paused ∧
    (setSessionPromptsBody st prompts (.error m)).state.nextStartTime = 0 ∧
    (setSessionPromptsBody st prompts (.error m)).toasts = [promptErrorToast m] ∧
    (updateLyriaConfigBody st cfg (.error m)).state = st ∧
    (updateLyriaConfigBody st cfg (.error m)).toasts = [configErrorToast m] := by
  simp [setSessionPromptsBody, updateLyriaConfigBody, internalPauseAudio,
    hsess, herr]

/-- Witness for C6 amended at a concrete playing state and failing sends. -/
theorem c6_send_failure_amended_witness :
    (setSessionPromptsBody ⟨.playing, 7, [], false, true, []⟩ []
        (.error "boom")).state.playbackState = .paused ∧
    (setSessionPromptsBody ⟨.playing, 7, [], false, true, []⟩ []
        (.error "boom")).state.nextStartTime = 0 ∧
    (setSessionPromptsBody ⟨.playing, 7, [], false, true, []⟩ []
        (.error "boom")).toasts = [promptErrorToast "boom"] ∧
    (updateLyriaConfigBody ⟨.playing, 7, [], false, true, []⟩ ⟨none, none⟩
        (.error "boom")).state = ⟨.playing, 7, [], false, true, []⟩ ∧
    (updateLyriaConfigBody ⟨.playing, 7, [], false, true, []⟩ ⟨none, none⟩
        (.error "boom")).toasts = [configErrorToast "boom"] :=
  c6_send_failure_amended ⟨.playing, 7, [], false, true, []⟩ [] ⟨none, none⟩
    "boom" (by decide) (by decide)

/-- C7: an error event sets the connectivity-error flag, hard-stops playback
(state `stopped`, cursor reset to 0 — not a pause) and surfaces a notice; an
unclean close behaves identically with its own notice; a clean close changes
nothing and shows nothing. -/
theorem c7_error_close_handling (st : PromptDjState)
    (hsess : st.hasSession = true) :
    (onerror st).1.connectionError = true ∧
    (onerror st).1.playbackState = .stopped ∧
    (onerror st).1.nextStartTime = 0 ∧
    (onerror st).2 = [errorToast] ∧
    (onclose st false).1.connectionError = true ∧
    (onclose st false).1.playbackState = .stopped ∧
    (onclose st false).1.nextStartTime = 0 ∧
    (onclose st false).2 = [closeToast] ∧
    onclose st true = (st, []) := by
  simp [onerror, onclose, internalStopAudio, hsess]

/-- Witness for C7 at a concrete playing state. -/
theorem c7_error_close_handling_witness :
    (onerror ⟨.playing, 9, [], false, true, []⟩).1.connectionError = true ∧
    (onerror ⟨.playing, 9, [], false, true, []⟩).1.playbackState = .stopped ∧
    (onerror ⟨.playing, 9, [], false, true, []⟩).1.nextStartTime = 0 ∧
    (onerror ⟨.playing, 9, [], false, true, []⟩).2 = [errorToast] ∧
    (onclose ⟨.playing, 9, [], false, true, []⟩ false).1.connectionError = true ∧
    (onclose ⟨.playing, 9, [], false, true, []⟩ false).1.playbackState = .stopped ∧
    (onclose ⟨.playing, 9, [], false, true, []⟩ false).1.nextStartTime = 0 ∧
    (onclose ⟨.playing, 9, [], false, true, []⟩ false).2 = [closeToast] ∧
    onclose ⟨.playing, 9, [], false, true, []⟩ true
      = (⟨.playing, 9, [], false, true, []⟩, []) :=
  c7_error_close_handling ⟨.playing, 9, [], false, true, []⟩ (by decide)

/-- C3 counterexample: the claim fails as stated.  Two calls inside one
200 ms window produce exactly one dispatch, but it carries the argument of
the FIRST call, not the last: the source's `throttle` drops in-window calls
outright, with no trailing coalesced dispatch. -/
theorem c3_throttle_counterexample :
    (throttleRun 200 0 [(1000, 1), (1100, 2)]).2.length = 1 ∧
    (throttleRun 200 0 [(1000, 1), (1100, 2)]).2 ≠ [2] ∧
    (throttleRun 200 0 [(1000, 1), (1100, 2)]).2 = [1] := by
  decide

/-- C3 amended: for M calls within one throttle window whose first call fires
(at least `delay` since the last forwarded call), exactly one dispatch occurs
and it carries the arguments of the first call of the window; the later calls
are dropped entirely. -/
theorem c3_throttle_amended {α : Type} (delay lastCall t0 : ℤ) (a0 : α)
    (rest : List (ℤ × α))
    (hfire : delay ≤ t0 - lastCall)
    (hwin : ∀ p ∈ rest, p.1 - t0 < delay) :
    throttleRun delay lastCall ((t0, a0) :: rest) = (t0, [a0]) := by
  have hdrop : ∀ (l : List (ℤ × α)), (∀ p ∈ l, p.1 - t0 < delay) →
      throttleRun delay t0 l = (t0, []) := by
    intro l
    induction l with
    | nil => intro _; rfl
    | cons p tl ih =>
      intro h
      have hp : ¬ delay ≤ p.1 - t0 :=
        not_le.mpr (h p (List.mem_cons_self p tl))
      obtain ⟨pt, pa⟩ := p
      simp only [throttleRun, throttleStep] at *
      rw [if_neg (by simpa using hp)]
      exact ih fun q hq => h q (List.mem_cons_of_mem _ hq)
  simp only [throttleRun, throttleStep]
  rw [if_pos (by simpa using hfire), hdrop rest hwin]

/-- Witness for C3 amended: calls at 1000 ms and 1100 ms against a 200 ms
window dispatch once, with the first call's argument. -/
theorem c3_throttle_amended_witness :
    throttleRun 200 0 [((1000 : ℤ), (1 : ℕ)), (1100, 2)] = (1000, [1]) :=
  c3_throttle_amended 200 0 1000 1 [(1100, 2)] (by decide) (by decide)

/-- C8: for the density and brightness fields, going manual, setting an
explicit value, going back to auto and then manual again restores that value
in the outgoing config; and while the auto flag is on, every dispatched
config carries `none` for that field. -/
theorem c8_auto_manual_roundtrip (st : SettingsState) (x y : ℚ) :
    ((handleInputChange ((handleInputChange ((handleInputChange
        ((handleInputChange st (.autoDensityToggle false)).1)
        (.densitySlider x)).1) (.autoDensityToggle true)).1)
        (.autoDensityToggle false)).2).density = some x ∧
    ((handleInputChange ((handleInputChange
        ((handleInputChange st (.autoDensityToggle false)).1)
        (.densitySlider x)).1) (.autoDensityToggle true)).2).density = none ∧
    ((handleInputChange ((handleInputChange ((handleInputChange
        ((handleInputChange st (.autoBrightnessToggle false)).1)
        (.brightnessSlider y)).1) (.autoBrightnessToggle true)).1)
        (.autoBrightnessToggle false)).2).brightness = some y ∧
    ((handleInputChange ((handleInputChange
        ((handleInputChange st (.autoBrightnessToggle false)).1)
        (.brightnessSlider y)).1) (.autoBrightnessToggle true)).2).brightness
      = none ∧
    (∀ (s : SettingsState) (e : SettingsEvent),
      (handleInputChange s e).1.autoDensity = true →
        ((handleInputChange s e).2).density = none) ∧
    (∀ (s : SettingsState) (e : SettingsEvent),
      (handleInputChange s e).1.autoBrightness = true →
        ((handleInputChange s e).2).brightness = none) := by
  refine ⟨?_, ?_, ?_, ?_, ?_, ?_⟩
  · simp [handleInputChange, dispatchSettingsChange]
  · simp [handleInputChange, dispatchSettingsChange]
  · simp [handleInputChange, dispatchSettingsChange]
  · simp [handleInputChange, dispatchSettingsChange]
  · intro s e h
    have h2 : (handleInputChange s e).2
        = dispatchSettingsChange (handleInputChange s e).1 := by
      cases e <;> rfl
    rw [h2]
    simp [dispatchSettingsChange, h]
  · intro s e h
    have h2 : (handleInputChange s e).2
        = dispatchSettingsChange (handleInputChange s e).1 := by
      cases e <;> rfl
    rw [h2]
    simp [dispatchSettingsChange, h]

/-- Witness for C8 at the default settings state and value 1. -/
theorem c8_auto_manual_roundtrip_witness :
    ((handleInputChange ((handleInputChange ((handleInputChange
        ((handleInputChange ⟨⟨none, none⟩, true, none, true, none⟩
          (.autoDensityToggle false)).1)
        (.densitySlider 1)).1) (.autoDensityToggle true)).1)
        (.autoDensityToggle false)).2).density = some 1 :=
  (c8_auto_manual_roundtrip ⟨⟨none, none⟩, true, none, true, none⟩ 1 1).1

/-- C10: of a message whose `audioChunks` array holds several chunks, only the
first element is decoded and scheduled — the handler's result is identical to
that for the message carrying the first chunk alone, whatever the rest is. -/
theorem c10_only_first_chunk (st : PromptDjState) (now : ℚ) (setup : Bool)
    (fp : Option FilteredPrompt) (c : EncodedChunk) (rest : List EncodedChunk) :
    onmessage st now ⟨setup, fp, some ⟨c :: rest⟩⟩
      = onmessage st now ⟨setup, fp, some ⟨[c]⟩⟩ := rfl

end Mvp
